import Mathlib

/-!
Verification of the `mysqlhandler` repository (SheffieldSolar), a thin
convenience layer over the MySQL connector: upsert SQL statement builders,
cursor-scoped execution wrappers, a retry helper and small option-merging
utilities.  The definitions below are a shallow embedding of
`src/mysql_handler.py` (and the identical `src/mysqlhandler/mysql_handler.py`);
each definition's doc comment names the Python function it embeds.
-/

namespace MysqlHandler

/-- Embeds `MysqlHandler.on_dup(col_names)`:
`on_dup_array = [f"{col_name}=vals.{col_name}" for col_name in col_names]`,
then `",".join(on_dup_array)`. -/
def on_dup (col_names : List String) : String :=
  String.intercalate "," (col_names.map (fun col_name => col_name ++ "=vals." ++ col_name))

/-- Embeds `MysqlHandler.insert_on_duplicate_key_update_statement(table, cols, keys, on_dup="")`.
Python: `cols_str = ",".join(cols)`; `placeholders = ",".join(["%s"] * len(cols))`;
`cols_on_dup = tuple(col for col in cols if col not in keys)`;
`on_dup = on_dup or MysqlHandler.on_dup(cols_on_dup)` (an empty override string is
falsy, so it is replaced by the synthesized clause);
result `f"insert into {table} ({cols_str}) values ({placeholders}) as vals on duplicate key update {on_dup}"`. -/
def insert_on_duplicate_key_update_statement
    (table : String) (cols keys : List String) (on_dup_arg : String := "") : String :=
  let cols_str := String.intercalate "," cols
  let placeholders := String.intercalate "," (List.replicate cols.length "%s")
  let cols_on_dup := cols.filter (fun col => !(keys.contains col))
  let od := if on_dup_arg = "" then on_dup cols_on_dup else on_dup_arg
  "insert into " ++ table ++ " (" ++ cols_str ++ ") values (" ++ placeholders ++
    ") as vals on duplicate key update " ++ od

/-- Python `dict` insertion of one key: if the key is present its value is
updated in place (position kept), otherwise the pair is appended.  Used to
embed the dict comprehension in
`insert_select_on_duplicate_key_update_statement`. -/
def pyDictInsert (d : List (String × String)) (k v : String) : List (String × String) :=
  if d.any (fun p => p.1 == k) then
    d.map (fun p => if p.1 == k then (k, v) else p)
  else
    d ++ [(k, v)]

/-- Python `dict` built from a sequence of key/value pairs in order
(later duplicates overwrite the value, keeping the first position). -/
def pyDictOf (ps : List (String × String)) : List (String × String) :=
  ps.foldl (fun d p => pyDictInsert d p.1 p.2) []

/-- Python `d[k]` on a dict represented as an ordered association list.
In the embedded code the key is always present, so the default branch for a
missing key (Python would raise `KeyError`) is unreachable. -/
def pyDictGet (d : List (String × String)) (k : String) : String :=
  match d.find? (fun p => p.1 == k) with
  | some p => p.2
  | none => "KeyError"

/-- Embeds the static method
`MysqlHandler.insert_select_on_duplicate_key_update_statement(table_from, table_into, colmap, keys)`.
`colmap` is a Python dict, embedded as its ordered item list (source expression,
destination column).  Python:
`cols_from = colmap.keys()`; `cols_into = colmap.values()`;
`col2alias = {col: f"alias{i}" for (i, col) in enumerate(cols_into)}`;
`aliases = col2alias.values()`; the update clause keeps every
`col_into not in keys`, rendered `f"{col_into}=vals.{col2alias[col_into]}"`;
result
`f"insert into {table_into} ({cols_into_str}) select * from (select {cols_from_str} from {table_from}) as vals({aliases_str}) on duplicate key update {on_dup_str}"`
(with a single space between the three f-string fragments). -/
def insert_select_on_duplicate_key_update_statement
    (table_from table_into : String) (colmap : List (String × String))
    (keys : List String) : String :=
  let cols_from := colmap.map Prod.fst
  let cols_into := colmap.map Prod.snd
  let col2alias := pyDictOf (cols_into.enum.map
    (fun p => (p.2, "alias" ++ toString p.1)))
  let aliases := col2alias.map Prod.snd
  let aliases_str := String.intercalate "," aliases
  let cols_into_str := String.intercalate "," cols_into
  let cols_from_str := String.intercalate "," cols_from
  let on_dup_list := (cols_into.filter (fun col_into => !(keys.contains col_into))).map
    (fun col_into => col_into ++ "=vals." ++ pyDictGet col2alias col_into)
  let on_dup_str := String.intercalate "," on_dup_list
  "insert into " ++ table_into ++ " (" ++ cols_into_str ++ ") select * from " ++
    "(select " ++ cols_from_str ++ " from " ++ table_from ++ ") as vals(" ++ aliases_str ++
    ") " ++ "on duplicate key update " ++ on_dup_str

/-- A MySQL driver error (`mysql.connector.errors.Error`): its error code and
the notes attached with `err.add_note` (notes do not change the error's
identity or code). -/
structure DbError where
  errno : Int
  notes : List String
deriving DecidableEq, Repr

/-- Embeds Python `err.add_note(note)`: appends a note to the error,
leaving its type and code unchanged. -/
def add_note (err : DbError) (note : String) : DbError :=
  { err with notes := err.notes ++ [note] }

/-- Cursor-resource accounting for one wrapper call: how many cursors the
call acquired and how many it closed. -/
structure CursorLog where
  opened : Nat
  closed : Nat
deriving DecidableEq, Repr

/-- Embeds `with closing(self.cnx.cursor()) as cursor: <body>`:
one cursor is acquired, the body runs (returning a value or raising a
driver error), and `contextlib.closing` calls `cursor.close()` on every
exit path — normal return and exception alike — before the value or the
error leaves the block. -/
def withClosing {α : Type} (body : Except DbError α) : Except DbError α × CursorLog :=
  (body, { opened := 1, closed := 1 })

/-- Embeds `MysqlHandler.execute(statement, params=None, multi=False)`.
The driver call (`list(cursor.execute(statement, multi=True))` when `multi`,
else `cursor.execute(statement, params, multi=False)`) is abstracted by its
outcome `driver_execute`; the `except connector.errors.Error` clause logs and
then bare-`raise`s the same error. -/
def execute (_multi : Bool) (driver_execute : Except DbError Unit) :
    Except DbError Unit × CursorLog :=
  withClosing (match driver_execute with
    | Except.ok u => Except.ok u
    | Except.error err => Except.error err)

/-- Embeds `MysqlHandler.executemany(statement, rows)`: on a driver error the
except clause runs `err.add_note(f"statement {statement}")` and re-raises the
same (annotated) error. -/
def executemany (statement : String) (driver_executemany : Except DbError Unit) :
    Except DbError Unit × CursorLog :=
  withClosing (match driver_executemany with
    | Except.ok u => Except.ok u
    | Except.error err => Except.error (add_note err ("statement " ++ statement)))

/-- Embeds `cursor.fetchone()` on a result set: the MySQL connector returns
the first row, or `None` when the result set is empty. -/
def cursor_fetchone {α : Type} (results : List α) : Option α :=
  results.head?

/-- Embeds `MysqlHandler.fetchone(statement, params=None)`:
`cursor.execute(statement, params=params)` then `result = cursor.fetchone()`,
both under the try; a driver error is logged and re-raised bare (no note). -/
def fetchone {α : Type} (driver_execute : Except DbError Unit)
    (driver_fetchone : Except DbError (Option α)) :
    Except DbError (Option α) × CursorLog :=
  withClosing (match driver_execute with
    | Except.error err => Except.error err
    | Except.ok _ =>
      match driver_fetchone with
      | Except.ok result => Except.ok result
      | Except.error err => Except.error err)

/-- Embeds `MysqlHandler.fetchall(statement, ...)`: execute then
`results = cursor.fetchall()`; on a driver error the except clause runs
`err.add_note(f"statement {statement}")` and re-raises. -/
def fetchall {α : Type} (statement : String) (driver_execute : Except DbError Unit)
    (driver_fetchall : Except DbError (List α)) :
    Except DbError (List α) × CursorLog :=
  withClosing (match driver_execute with
    | Except.error err => Except.error (add_note err ("statement " ++ statement))
    | Except.ok _ =>
      match driver_fetchall with
      | Except.ok results => Except.ok results
      | Except.error err => Except.error (add_note err ("statement " ++ statement)))

/-- Modelled from the spec: the `retry` helper is absent from `src/` (only its
tests remain, in `tests/test_mysql_handler.py`); the spec defines the transient
set as connection-lost and lock-wait-timeout.  The connector codes for these
are `CR_SERVER_LOST = 2013`, `CR_SERVER_LOST_EXTENDED = 2055` and
`ER_LOCK_WAIT_TIMEOUT = 1205` (the codes the tests exercise). -/
def transient_errnos : List Int := [2013, 2055, 1205]

/-- An error is transient (retry-eligible) when its code is in the allowlist. -/
def is_transient (err : DbError) : Bool := transient_errnos.contains err.errno

/-- Observable behaviour of one `retry` run: the final outcome, the backoff
sleeps performed (in order, in seconds), and how many times the wrapped
operation was called. -/
structure RetryTrace (α : Type) where
  result : Except DbError α
  sleeps : List Nat
  calls : Nat
deriving Repr

/-- Modelled from the spec: one step of `retry`.  `op i` is the outcome of the
(i+1)-th call of `operation(args...)`; `fuel` counts the attempts still
allowed.  A success returns at once; a non-transient error is raised at once;
a transient error on any attempt but the last sleeps `base ^ attempt` seconds
and retries; a transient error on the last allowed attempt is raised as the
last observed error. -/
def retryAux {α : Type} (op : Nat → Except DbError α) (base : Nat) :
    Nat → Nat → RetryTrace α
  | _attempt, 0 => { result := Except.error { errno := 0, notes := [] }, sleeps := [], calls := 0 }
  | attempt, fuel + 1 =>
    match op attempt with
    | Except.ok v => { result := Except.ok v, sleeps := [], calls := 1 }
    | Except.error err =>
      if fuel == 0 || !(is_transient err) then
        { result := Except.error err, sleeps := [], calls := 1 }
      else
        let rest := retryAux op base (attempt + 1) fuel
        { result := rest.result
          sleeps := base ^ attempt :: rest.sleeps
          calls := rest.calls + 1 }

/-- Modelled from the spec:
`retry(operation, args..., base=2, max_attempts=8)`. -/
def retry {α : Type} (op : Nat → Except DbError α) (base : Nat := 2)
    (max_attempts : Nat := 8) : RetryTrace α :=
  retryAux op base 0 max_attempts

/-- A Python dict of MySQL connection options, as a lookup map from option
name to value. -/
def MysqlOptions : Type := String → Option String

/-- Embeds `config.mysql_options.update({key: value})`. -/
def dict_update (d : MysqlOptions) (k v : String) : MysqlOptions :=
  fun q => if q = k then some v else d q

/-- The config object handed to `override_mysql_options`: the four optional
override attributes (a missing/`None` or empty-string value is falsy in
Python) and the `mysql_options` dict it mutates. -/
structure Config where
  mysql_database : Option String
  mysql_host : Option String
  mysql_password : Option String
  mysql_user : Option String
  mysql_options : MysqlOptions

/-- One `if config.<attr>: config.mysql_options.update({key: config.<attr>})`
step, with Python truthiness on the optional string attribute. -/
def apply_override (d : MysqlOptions) (key : String) (value : Option String) :
    MysqlOptions :=
  match value with
  | none => d
  | some s => if s == "" then d else dict_update d key s

/-- Embeds the static method `MysqlHandler.override_mysql_options(config)`:
copies `database`, `host`, `password`, `user` (in that source order) into
`config.mysql_options`, each only when the corresponding config attribute is
truthy. -/
def override_mysql_options (c : Config) : Config :=
  let d0 := c.mysql_options
  let d1 := apply_override d0 "database" c.mysql_database
  let d2 := apply_override d1 "host" c.mysql_host
  let d3 := apply_override d2 "password" c.mysql_password
  let d4 := apply_override d3 "user" c.mysql_user
  { c with mysql_options := d4 }

/-- The state `reset_auto_increment(table, col)` reads and writes:
`max_val` is the single cell of `select max(col) from table` (SQL `NULL`,
i.e. Python `None`, when the table has no rows) and `auto_increment` is the
counter read back from `information_schema.tables`. -/
structure TableState where
  max_val : Option Int
  auto_increment : Int
deriving DecidableEq, Repr

/-- Outcome of `reset_auto_increment`: a returned value with the updated
table state, a Python `TypeError`, or a raised driver error. -/
inductive ResetOutcome where
  | value : Int → TableState → ResetOutcome
  | pyTypeError : ResetOutcome
  | dbError : DbError → ResetOutcome
deriving DecidableEq, Repr

/-- Embeds `MysqlHandler.reset_auto_increment(table, col)` on a healthy
connection: `max_val = self.fetchone("select max(col) from table")[0]`;
then `alter table {table} auto_increment = {max_val+1}` — in Python,
`None + 1` raises `TypeError` before any statement is built when the table is
empty; otherwise the alter sets the counter and the final
`select auto_increment from information_schema.tables ...` re-reads it, and
that re-read value is returned. -/
def reset_auto_increment (s : TableState) : ResetOutcome :=
  match s.max_val with
  | none => ResetOutcome.pyTypeError
  | some m =>
    let s2 : TableState := { s with auto_increment := m + 1 }
    ResetOutcome.value s2.auto_increment s2

end MysqlHandler

theorem intercalate_go_append (s : String) (as : List String) :
    ∀ acc1 acc2 : String,
      String.intercalate.go (acc1 ++ acc2) s as = acc1 ++ String.intercalate.go acc2 s as := by
  induction as with
  | nil => intro acc1 acc2; rfl
  | cons a tl ih =>
    intro acc1 acc2
    show String.intercalate.go (acc1 ++ acc2 ++ s ++ a) s tl
        = acc1 ++ String.intercalate.go (acc2 ++ s ++ a) s tl
    rw [show acc1 ++ acc2 ++ s ++ a = acc1 ++ (acc2 ++ s ++ a) by
      simp [String.append_assoc], ih]

theorem intercalate_cons_of_ne_nil (s a : String) (l : List String) (h : l ≠ []) :
    String.intercalate s (a :: l) = a ++ s ++ String.intercalate s l := by
  cases l with
  | nil => exact absurd rfl h
  | cons b bs =>
    show String.intercalate.go (a ++ s ++ b) s bs = a ++ s ++ String.intercalate.go b s bs
    exact intercalate_go_append s bs (a ++ s) b

theorem contains_eq_not_mem (keys : List String) :
    (fun col => !(keys.contains col)) = (fun col => decide (col ∉ keys)) := by
  funext col
  simp [List.contains_eq_any_beq, List.any_beq]

/-- C6: `on_dup` renders every ordered sequence of column names as
`col1=vals.col1,col2=vals.col2,...` — each name `name=vals.name`, joined by
commas, in input order — and the empty sequence yields the empty string. -/
theorem C6_on_dup_clause :
    MysqlHandler.on_dup [] = "" ∧
    (∀ col_names : List String,
      MysqlHandler.on_dup col_names =
        String.intercalate "," (col_names.map (fun c => c ++ "=vals." ++ c))) ∧
    (∀ c : String, MysqlHandler.on_dup [c] = c ++ "=vals." ++ c) ∧
    (∀ (c : String) (rest : List String), rest ≠ [] →
      MysqlHandler.on_dup (c :: rest) =
        c ++ "=vals." ++ c ++ "," ++ MysqlHandler.on_dup rest) := by
  refine ⟨rfl, fun _ => rfl, fun _ => rfl, fun c rest h => ?_⟩
  unfold MysqlHandler.on_dup
  rw [List.map_cons]
  have hne : rest.map (fun col_name => col_name ++ "=vals." ++ col_name) ≠ [] := by
    simpa using h
  rw [intercalate_cons_of_ne_nil _ _ _ hne]

/-- Witness for C6 at a concrete non-empty tail. -/
theorem C6_on_dup_clause_witness :
    MysqlHandler.on_dup ("b" :: ["c"]) =
      "b" ++ "=vals." ++ "b" ++ "," ++ MysqlHandler.on_dup ["c"] :=
  C6_on_dup_clause.2.2.2 "b" ["c"] (by decide)

/-- C1: with no `on_dup` override, for every non-empty table, non-empty `cols`
and `keys ⊆ cols`, `insert_on_duplicate_key_update_statement` returns
`insert into {table} ({cols joined by commas}) values ({one %s per col}) as
vals on duplicate key update {clause}` where the clause renders exactly the
elements of `cols` not in `keys`, in their original relative order, each as
`name=vals.name` joined by commas; in particular the quoted concrete scenario
holds. -/
theorem C1_insert_upsert_statement (table : String) (cols keys : List String)
    (ht : table ≠ "") (hc : cols ≠ []) (hk : ∀ k ∈ keys, k ∈ cols) :
    (MysqlHandler.insert_on_duplicate_key_update_statement table cols keys "" =
      "insert into " ++ table ++ " (" ++ String.intercalate "," cols ++ ") values (" ++
        String.intercalate "," (List.replicate cols.length "%s") ++
        ") as vals on duplicate key update " ++
        String.intercalate ","
          ((cols.filter (fun col => decide (col ∉ keys))).map
            (fun col => col ++ "=vals." ++ col))) ∧
    MysqlHandler.insert_on_duplicate_key_update_statement "t" ["a", "b", "c"] ["a"] "" =
      "insert into t (a,b,c) values (%s,%s,%s) as vals on duplicate key update b=vals.b,c=vals.c" := by
  refine ⟨?_, by decide⟩
  unfold MysqlHandler.insert_on_duplicate_key_update_statement
  rw [contains_eq_not_mem keys]
  rfl

/-- Witness for C1 at the claim's concrete scenario. -/
theorem C1_insert_upsert_statement_witness :
    MysqlHandler.insert_on_duplicate_key_update_statement "t" ["a", "b", "c"] ["a"] "" =
      "insert into t (a,b,c) values (%s,%s,%s) as vals on duplicate key update b=vals.b,c=vals.c" :=
  (C1_insert_upsert_statement "t" ["a", "b", "c"] ["a"] (by decide) (by decide)
    (by decide)).2

/-- C7: whenever a non-empty `on_dup` override is given, it is used verbatim
as the whole update clause, and `keys` has no effect on the output; with no
override the clause is synthesized from `cols` minus `keys`. -/
theorem C7_on_dup_override (table : String) (cols keys : List String) :
    (∀ od : String, od ≠ "" →
      (MysqlHandler.insert_on_duplicate_key_update_statement table cols keys od =
        "insert into " ++ table ++ " (" ++ String.intercalate "," cols ++ ") values (" ++
          String.intercalate "," (List.replicate cols.length "%s") ++
          ") as vals on duplicate key update " ++ od) ∧
      (∀ keys2 : List String,
        MysqlHandler.insert_on_duplicate_key_update_statement table cols keys od =
          MysqlHandler.insert_on_duplicate_key_update_statement table cols keys2 od)) ∧
    MysqlHandler.insert_on_duplicate_key_update_statement table cols keys "" =
      "insert into " ++ table ++ " (" ++ String.intercalate "," cols ++ ") values (" ++
        String.intercalate "," (List.replicate cols.length "%s") ++
        ") as vals on duplicate key update " ++
        MysqlHandler.on_dup (cols.filter (fun col => !(keys.contains col))) := by
  constructor
  · intro od hod
    constructor
    · show "insert into " ++ table ++ " (" ++ String.intercalate "," cols ++ ") values (" ++
          String.intercalate "," (List.replicate cols.length "%s") ++
          ") as vals on duplicate key update " ++
          (if od = "" then
            MysqlHandler.on_dup (cols.filter (fun col => !(keys.contains col))) else od) = _
      rw [if_neg hod]
    · intro keys2
      show "insert into " ++ table ++ " (" ++ String.intercalate "," cols ++ ") values (" ++
          String.intercalate "," (List.replicate cols.length "%s") ++
          ") as vals on duplicate key update " ++
          (if od = "" then
            MysqlHandler.on_dup (cols.filter (fun col => !(keys.contains col))) else od) =
        "insert into " ++ table ++ " (" ++ String.intercalate "," cols ++ ") values (" ++
          String.intercalate "," (List.replicate cols.length "%s") ++
          ") as vals on duplicate key update " ++
          (if od = "" then
            MysqlHandler.on_dup (cols.filter (fun col => !(keys2.contains col))) else od)
      rw [if_neg hod, if_neg hod]
  · rfl

/-- Witness for C7: a concrete override is copied verbatim and the keys
argument is ignored. -/
theorem C7_on_dup_override_witness :
    MysqlHandler.insert_on_duplicate_key_update_statement "t" ["a", "b"] ["a"] "a=a+1" =
      "insert into " ++ "t" ++ " (" ++ String.intercalate "," ["a", "b"] ++ ") values (" ++
        String.intercalate "," (List.replicate (["a", "b"] : List String).length "%s") ++
        ") as vals on duplicate key update " ++ "a=a+1" :=
  ((C7_on_dup_override "t" ["a", "b"] ["a"]).1 "a=a+1" (by decide)).1

/-- C8: when every column is a key (and no override is given) the synthesized
clause is empty: the statement ends with `on duplicate key update ` followed
by nothing — syntactically invalid SQL, produced without any exception. -/
theorem C8_all_keys_empty_clause (table : String) (cols keys : List String)
    (h : ∀ c ∈ cols, c ∈ keys) :
    MysqlHandler.insert_on_duplicate_key_update_statement table cols keys "" =
      "insert into " ++ table ++ " (" ++ String.intercalate "," cols ++ ") values (" ++
        String.intercalate "," (List.replicate cols.length "%s") ++
        ") as vals on duplicate key update " := by
  have hfil : cols.filter (fun col => !(keys.contains col)) = [] := by
    rw [List.filter_eq_nil_iff]
    intro a ha
    simp [List.contains, h a ha]
  show "insert into " ++ table ++ " (" ++ String.intercalate "," cols ++ ") values (" ++
      String.intercalate "," (List.replicate cols.length "%s") ++
      ") as vals on duplicate key update " ++
      MysqlHandler.on_dup (cols.filter (fun col => !(keys.contains col))) = _
  rw [hfil]
  show _ ++ ("" : String) = _
  rw [String.append_empty]

/-- Witness for C8: all columns are keys at a concrete input. -/
theorem C8_all_keys_empty_clause_witness :
    MysqlHandler.insert_on_duplicate_key_update_statement "t" ["a", "b"] ["b", "a"] "" =
      "insert into " ++ "t" ++ " (" ++ String.intercalate "," ["a", "b"] ++ ") values (" ++
        String.intercalate "," (List.replicate (["a", "b"] : List String).length "%s") ++
        ") as vals on duplicate key update " :=
  C8_all_keys_empty_clause "t" ["a", "b"] ["b", "a"] (by decide)

/-- C4: for every `execute`, `executemany`, `fetchone` and `fetchall` call,
the cursor acquired for the call is closed on every exit path (success and
driver error alike, exactly one close per acquisition), the wrapper never
swallows a database error, and the re-raised error keeps the driver error's
code (identical error for `execute`/`fetchone`; for `executemany`/`fetchall`
the same error with a `statement ...` note attached, code unchanged). -/
theorem C4_cursor_release_and_propagation :
    (∀ (multi : Bool) (d : Except MysqlHandler.DbError Unit),
      (MysqlHandler.execute multi d).2.closed = (MysqlHandler.execute multi d).2.opened ∧
      (MysqlHandler.execute multi d).2.closed = 1 ∧
      (MysqlHandler.execute multi d).1 = d) ∧
    (∀ (stmt : String) (d : Except MysqlHandler.DbError Unit),
      (MysqlHandler.executemany stmt d).2.closed = (MysqlHandler.executemany stmt d).2.opened ∧
      (MysqlHandler.executemany stmt d).2.closed = 1 ∧
      (d = Except.ok () → (MysqlHandler.executemany stmt d).1 = Except.ok ()) ∧
      (∀ e, d = Except.error e →
        (MysqlHandler.executemany stmt d).1 =
          Except.error (MysqlHandler.add_note e ("statement " ++ stmt)) ∧
        ∀ e2, (MysqlHandler.executemany stmt d).1 = Except.error e2 → e2.errno = e.errno)) ∧
    (∀ (α : Type) (dexec : Except MysqlHandler.DbError Unit)
        (dfetch : Except MysqlHandler.DbError (Option α)),
      (MysqlHandler.fetchone dexec dfetch).2.closed =
        (MysqlHandler.fetchone dexec dfetch).2.opened ∧
      (MysqlHandler.fetchone dexec dfetch).2.closed = 1 ∧
      (∀ e, dexec = Except.error e →
        (MysqlHandler.fetchone dexec dfetch).1 = Except.error e) ∧
      (∀ e, dexec = Except.ok () → dfetch = Except.error e →
        (MysqlHandler.fetchone dexec dfetch).1 = Except.error e) ∧
      (∀ r, dexec = Except.ok () → dfetch = Except.ok r →
        (MysqlHandler.fetchone dexec dfetch).1 = Except.ok r)) ∧
    (∀ (α : Type) (stmt : String) (dexec : Except MysqlHandler.DbError Unit)
        (dfetch : Except MysqlHandler.DbError (List α)),
      (MysqlHandler.fetchall stmt dexec dfetch).2.closed =
        (MysqlHandler.fetchall stmt dexec dfetch).2.opened ∧
      (MysqlHandler.fetchall stmt dexec dfetch).2.closed = 1 ∧
      (∀ e, dexec = Except.error e →
        (MysqlHandler.fetchall stmt dexec dfetch).1 =
          Except.error (MysqlHandler.add_note e ("statement " ++ stmt)) ∧
        (MysqlHandler.add_note e ("statement " ++ stmt)).errno = e.errno) ∧
      (∀ e, dexec = Except.ok () → dfetch = Except.error e →
        (MysqlHandler.fetchall stmt dexec dfetch).1 =
          Except.error (MysqlHandler.add_note e ("statement " ++ stmt)) ∧
        (MysqlHandler.add_note e ("statement " ++ stmt)).errno = e.errno) ∧
      (∀ rows, dexec = Except.ok () → dfetch = Except.ok rows →
        (MysqlHandler.fetchall stmt dexec dfetch).1 = Except.ok rows)) := by
  refine ⟨fun multi d => ⟨rfl, rfl, ?_⟩, fun stmt d => ⟨rfl, rfl, ?_, ?_⟩,
    fun α dexec dfetch => ⟨rfl, rfl, ?_, ?_, ?_⟩,
    fun α stmt dexec dfetch => ⟨rfl, rfl, ?_, ?_, ?_⟩⟩
  · cases d with
    | ok u => rfl
    | error e => rfl
  · intro hd; subst hd; rfl
  · intro e hd
    subst hd
    exact ⟨rfl, fun e2 h2 => by
      simp only [MysqlHandler.executemany, MysqlHandler.withClosing] at h2
      cases h2
      rfl⟩
  · intro e hd; subst hd; rfl
  · intro e hexec hfetch; subst hexec; subst hfetch; rfl
  · intro r hexec hfetch; subst hexec; subst hfetch; rfl
  · intro e hd; subst hd; exact ⟨rfl, rfl⟩
  · intro e hexec hfetch; subst hexec; subst hfetch; exact ⟨rfl, rfl⟩
  · intro rows hexec hfetch; subst hexec; subst hfetch; rfl

/-- Witness for C4: concrete driver outcomes exercising the hypotheses of the
conditional conjuncts — an `executemany` driver error keeps its code 1064,
its cursor is closed, and an error-free `fetchone` also closes its cursor. -/
theorem C4_cursor_release_and_propagation_witness :
    (MysqlHandler.executemany "insert into t values (%s)"
        (Except.error { errno := 1064, notes := [] })).1 =
      Except.error (MysqlHandler.add_note { errno := 1064, notes := [] }
        ("statement " ++ "insert into t values (%s)")) ∧
    (MysqlHandler.executemany "insert into t values (%s)"
        (Except.error { errno := 1064, notes := [] })).2.closed = 1 ∧
    (MysqlHandler.fetchone (α := Nat) (Except.ok ()) (Except.ok (some 1))).1 =
      Except.ok (some 1) ∧
    (MysqlHandler.fetchone (α := Nat) (Except.ok ()) (Except.ok (some 1))).2.closed = 1 := by
  refine ⟨?_, ?_, ?_, ?_⟩
  · exact ((C4_cursor_release_and_propagation.2.1 "insert into t values (%s)"
      (Except.error { errno := 1064, notes := [] })).2.2.2
      { errno := 1064, notes := [] } rfl).1
  · exact (C4_cursor_release_and_propagation.2.1 "insert into t values (%s)"
      (Except.error { errno := 1064, notes := [] })).2.1
  · exact (C4_cursor_release_and_propagation.2.2.1 Nat (Except.ok ())
      (Except.ok (some 1))).2.2.2.2 (some 1) rfl rfl
  · exact (C4_cursor_release_and_propagation.2.2.1 Nat (Except.ok ())
      (Except.ok (some 1))).2.1

/-- C5: `fetchone` on a successfully executed query returns the driver's
`cursor.fetchone()` value unchanged: the explicit absent marker (`None`) when
the result set is empty — not an error and not a row — and the first row when
the result set is non-empty. -/
theorem C5_fetchone_empty_absent (α : Type) (results : List α) :
    (MysqlHandler.fetchone (Except.ok ())
        (Except.ok (MysqlHandler.cursor_fetchone results))).1 =
      Except.ok (MysqlHandler.cursor_fetchone results) ∧
    (results = [] →
      (MysqlHandler.fetchone (Except.ok ())
          (Except.ok (MysqlHandler.cursor_fetchone results))).1 = Except.ok none) ∧
    (∀ (r : α) (rest : List α), results = r :: rest →
      (MysqlHandler.fetchone (Except.ok ())
          (Except.ok (MysqlHandler.cursor_fetchone results))).1 = Except.ok (some r)) := by
  refine ⟨rfl, ?_, ?_⟩
  · intro h; subst h; rfl
  · intro r rest h; subst h; rfl

/-- Witness for C5: an empty result set yields `none`, a singleton yields its
row. -/
theorem C5_fetchone_empty_absent_witness :
    (MysqlHandler.fetchone (Except.ok ())
        (Except.ok (MysqlHandler.cursor_fetchone ([] : List Nat)))).1 = Except.ok none ∧
    (MysqlHandler.fetchone (Except.ok ())
        (Except.ok (MysqlHandler.cursor_fetchone [7]))).1 = Except.ok (some 7) :=
  ⟨(C5_fetchone_empty_absent Nat []).2.1 rfl,
   (C5_fetchone_empty_absent Nat [7]).2.2 7 [] rfl⟩

theorem apply_override_frame (d : MysqlHandler.MysqlOptions) (key : String)
    (value : Option String) (q : String) (hq : q ≠ key) :
    MysqlHandler.apply_override d key value q = d q := by
  cases value with
  | none => rfl
  | some s =>
    show (if (s == "") = true then d else MysqlHandler.dict_update d key s) q = d q
    by_cases h : (s == "") = true
    · rw [if_pos h]
    · rw [if_neg h]
      show (if q = key then some s else d q) = d q
      rw [if_neg hq]

theorem apply_override_hit (d : MysqlHandler.MysqlOptions) (key s : String)
    (hs : s ≠ "") :
    MysqlHandler.apply_override d key (some s) key = some s := by
  show (if (s == "") = true then d else MysqlHandler.dict_update d key s) key = some s
  rw [if_neg (by simpa using hs)]
  show (if key = key then some s else d key) = some s
  rw [if_pos rfl]

theorem apply_override_absent (d : MysqlHandler.MysqlOptions) (key : String)
    (value : Option String) (hv : value = none ∨ value = some "") :
    MysqlHandler.apply_override d key value = d := by
  rcases hv with h | h <;> subst h
  · rfl
  · show (if (("" : String) == "") = true then d else MysqlHandler.dict_update d key "") = d
    rw [if_pos (by decide)]

/-- C9: `override_mysql_options` copies exactly `database`, `host`,
`password`, `user` from the config into the options dict, each only when the
corresponding config attribute is truthy (present and non-empty); every other
options key, every key whose config attribute is falsy, and every other field
of the config are left unchanged. -/
theorem C9_override_mysql_options (c : MysqlHandler.Config) :
    (∀ k, k ≠ "database" → k ≠ "host" → k ≠ "password" → k ≠ "user" →
      (MysqlHandler.override_mysql_options c).mysql_options k = c.mysql_options k) ∧
    ((MysqlHandler.override_mysql_options c).mysql_database = c.mysql_database ∧
      (MysqlHandler.override_mysql_options c).mysql_host = c.mysql_host ∧
      (MysqlHandler.override_mysql_options c).mysql_password = c.mysql_password ∧
      (MysqlHandler.override_mysql_options c).mysql_user = c.mysql_user) ∧
    (∀ s, c.mysql_database = some s → s ≠ "" →
      (MysqlHandler.override_mysql_options c).mysql_options "database" = some s) ∧
    (∀ s, c.mysql_host = some s → s ≠ "" →
      (MysqlHandler.override_mysql_options c).mysql_options "host" = some s) ∧
    (∀ s, c.mysql_password = some s → s ≠ "" →
      (MysqlHandler.override_mysql_options c).mysql_options "password" = some s) ∧
    (∀ s, c.mysql_user = some s → s ≠ "" →
      (MysqlHandler.override_mysql_options c).mysql_options "user" = some s) ∧
    (c.mysql_database = none ∨ c.mysql_database = some "" →
      (MysqlHandler.override_mysql_options c).mysql_options "database" =
        c.mysql_options "database") ∧
    (c.mysql_host = none ∨ c.mysql_host = some "" →
      (MysqlHandler.override_mysql_options c).mysql_options "host" =
        c.mysql_options "host") ∧
    (c.mysql_password = none ∨ c.mysql_password = some "" →
      (MysqlHandler.override_mysql_options c).mysql_options "password" =
        c.mysql_options "password") ∧
    (c.mysql_user = none ∨ c.mysql_user = some "" →
      (MysqlHandler.override_mysql_options c).mysql_options "user" =
        c.mysql_options "user") := by
  unfold MysqlHandler.override_mysql_options
  refine ⟨?_, ⟨rfl, rfl, rfl, rfl⟩, ?_, ?_, ?_, ?_, ?_, ?_, ?_, ?_⟩
  · intro k h1 h2 h3 h4
    show MysqlHandler.apply_override _ "user" c.mysql_user k = c.mysql_options k
    rw [apply_override_frame _ _ _ _ h4, apply_override_frame _ _ _ _ h3,
      apply_override_frame _ _ _ _ h2, apply_override_frame _ _ _ _ h1]
  · intro s hs hne
    show MysqlHandler.apply_override _ "user" c.mysql_user "database" = some s
    rw [apply_override_frame _ _ _ _ (by decide), apply_override_frame _ _ _ _ (by decide),
      apply_override_frame _ _ _ _ (by decide), hs, apply_override_hit _ _ _ hne]
  · intro s hs hne
    show MysqlHandler.apply_override _ "user" c.mysql_user "host" = some s
    rw [apply_override_frame _ _ _ _ (by decide), apply_override_frame _ _ _ _ (by decide),
      hs, apply_override_hit _ _ _ hne]
  · intro s hs hne
    show MysqlHandler.apply_override _ "user" c.mysql_user "password" = some s
    rw [apply_override_frame _ _ _ _ (by decide), hs, apply_override_hit _ _ _ hne]
  · intro s hs hne
    show MysqlHandler.apply_override _ "user" c.mysql_user "user" = some s
    rw [hs, apply_override_hit _ _ _ hne]
  · intro hv
    show MysqlHandler.apply_override _ "user" c.mysql_user "database" =
      c.mysql_options "database"
    rw [apply_override_frame _ _ _ _ (by decide), apply_override_frame _ _ _ _ (by decide),
      apply_override_frame _ _ _ _ (by decide), apply_override_absent _ _ _ hv]
  · intro hv
    show MysqlHandler.apply_override _ "user" c.mysql_user "host" = c.mysql_options "host"
    rw [apply_override_frame _ _ _ _ (by decide), apply_override_frame _ _ _ _ (by decide),
      apply_override_absent _ _ _ hv, apply_override_frame _ _ _ _ (by decide)]
  · intro hv
    show MysqlHandler.apply_override _ "user" c.mysql_user "password" =
      c.mysql_options "password"
    rw [apply_override_frame _ _ _ _ (by decide), apply_override_absent _ _ _ hv,
      apply_override_frame _ _ _ _ (by decide), apply_override_frame _ _ _ _ (by decide)]
  · intro hv
    show MysqlHandler.apply_override _ "user" c.mysql_user "user" = c.mysql_options "user"
    rw [apply_override_absent _ _ _ hv, apply_override_frame _ _ _ _ (by decide),
      apply_override_frame _ _ _ _ (by decide), apply_override_frame _ _ _ _ (by decide)]

/-- Witness for C9 at a concrete config: `database` truthy (copied), `host`
absent (unchanged), `password` empty-string falsy (unchanged), `user` truthy
(copied), and an unrelated key `autocommit` untouched. -/
theorem C9_override_mysql_options_witness :
    (MysqlHandler.override_mysql_options
        { mysql_database := some "db1", mysql_host := none, mysql_password := some "",
          mysql_user := some "u1",
          mysql_options := fun k =>
            if k = "host" then some "h0"
            else if k = "autocommit" then some "true" else none }).mysql_options
      "database" = some "db1" ∧
    (MysqlHandler.override_mysql_options
        { mysql_database := some "db1", mysql_host := none, mysql_password := some "",
          mysql_user := some "u1",
          mysql_options := fun k =>
            if k = "host" then some "h0"
            else if k = "autocommit" then some "true" else none }).mysql_options
      "host" = some "h0" ∧
    (MysqlHandler.override_mysql_options
        { mysql_database := some "db1", mysql_host := none, mysql_password := some "",
          mysql_user := some "u1",
          mysql_options := fun k =>
            if k = "host" then some "h0"
            else if k = "autocommit" then some "true" else none }).mysql_options
      "password" = none ∧
    (MysqlHandler.override_mysql_options
        { mysql_database := some "db1", mysql_host := none, mysql_password := some "",
          mysql_user := some "u1",
          mysql_options := fun k =>
            if k = "host" then some "h0"
            else if k = "autocommit" then some "true" else none }).mysql_options
      "autocommit" = some "true" := by
  have h := C9_override_mysql_options
    { mysql_database := some "db1", mysql_host := none, mysql_password := some "",
      mysql_user := some "u1",
      mysql_options := fun k =>
        if k = "host" then some "h0"
        else if k = "autocommit" then some "true" else none }
  refine ⟨h.2.2.1 "db1" rfl (by decide), ?_, ?_, ?_⟩
  · exact (h.2.2.2.2.2.2.2.1 (Or.inl rfl)).trans (by decide)
  · exact (h.2.2.2.2.2.2.2.2.1 (Or.inr rfl)).trans (by decide)
  · exact (h.1 "autocommit" (by decide) (by decide) (by decide) (by decide)).trans (by decide)

/-- C10: `reset_auto_increment` on an empty table (the `select max(col)` cell
is the null marker) fails with a Python `TypeError` from `max_val + 1` — it
neither returns a value nor raises a database error; on a table with at least
one row it sets the counter to `max + 1`, re-reads it, and returns the re-read
value. -/
theorem C10_reset_auto_increment (s : MysqlHandler.TableState) :
    (s.max_val = none →
      MysqlHandler.reset_auto_increment s = MysqlHandler.ResetOutcome.pyTypeError ∧
      (∀ v s2, MysqlHandler.reset_auto_increment s ≠ MysqlHandler.ResetOutcome.value v s2) ∧
      (∀ e, MysqlHandler.reset_auto_increment s ≠ MysqlHandler.ResetOutcome.dbError e)) ∧
    (∀ m : Int, s.max_val = some m →
      MysqlHandler.reset_auto_increment s =
        MysqlHandler.ResetOutcome.value (m + 1) { s with auto_increment := m + 1 }) := by
  constructor
  · intro h
    have hr : MysqlHandler.reset_auto_increment s = MysqlHandler.ResetOutcome.pyTypeError := by
      unfold MysqlHandler.reset_auto_increment
      rw [h]
    refine ⟨hr, fun v s2 hv => ?_, fun e he => ?_⟩
    · rw [hr] at hv; cases hv
    · rw [hr] at he; cases he
  · intro m h
    unfold MysqlHandler.reset_auto_increment
    rw [h]

/-- Witness for C10: the empty table fails with `TypeError`; a table with
`max = 41` returns the re-read counter `42`. -/
theorem C10_reset_auto_increment_witness :
    MysqlHandler.reset_auto_increment { max_val := none, auto_increment := 5 } =
      MysqlHandler.ResetOutcome.pyTypeError ∧
    MysqlHandler.reset_auto_increment { max_val := some 41, auto_increment := 7 } =
      MysqlHandler.ResetOutcome.value 42 { max_val := some 41, auto_increment := 42 } :=
  ⟨((C10_reset_auto_increment { max_val := none, auto_increment := 5 }).1 rfl).1,
   (C10_reset_auto_increment { max_val := some 41, auto_increment := 7 }).2 41 rfl⟩

theorem retryAux_ok {α : Type} (op : Nat → Except MysqlHandler.DbError α)
    (base a f : Nat) (v : α) (hop : op a = Except.ok v) :
    MysqlHandler.retryAux op base a (f + 1) =
      { result := Except.ok v, sleeps := [], calls := 1 } := by
  simp [MysqlHandler.retryAux, hop]

theorem retryAux_err_stop {α : Type} (op : Nat → Except MysqlHandler.DbError α)
    (base a f : Nat) (e : MysqlHandler.DbError) (hop : op a = Except.error e)
    (hc : (f == 0 || !(MysqlHandler.is_transient e)) = true) :
    MysqlHandler.retryAux op base a (f + 1) =
      { result := Except.error e, sleeps := [], calls := 1 } := by
  simp [MysqlHandler.retryAux, hop, hc]

theorem retryAux_err_go {α : Type} (op : Nat → Except MysqlHandler.DbError α)
    (base a f : Nat) (e : MysqlHandler.DbError) (hop : op a = Except.error e)
    (hc : (f == 0 || !(MysqlHandler.is_transient e)) = false) :
    MysqlHandler.retryAux op base a (f + 1) =
      { result := (MysqlHandler.retryAux op base (a + 1) f).result
        sleeps := base ^ a :: (MysqlHandler.retryAux op base (a + 1) f).sleeps
        calls := (MysqlHandler.retryAux op base (a + 1) f).calls + 1 } := by
  simp [MysqlHandler.retryAux, hop, hc]

theorem retryAux_calls_le {α : Type} (op : Nat → Except MysqlHandler.DbError α)
    (base : Nat) :
    ∀ (fuel a : Nat), (MysqlHandler.retryAux op base a fuel).calls ≤ fuel := by
  intro fuel
  induction fuel with
  | zero => intro a; exact Nat.le_refl 0
  | succ f ih =>
    intro a
    cases hop : op a with
    | ok v =>
      rw [retryAux_ok op base a f v hop]
      exact Nat.succ_le_succ (Nat.zero_le f)
    | error err =>
      by_cases hc : (f == 0 || !(MysqlHandler.is_transient err)) = true
      · rw [retryAux_err_stop op base a f err hop hc]
        exact Nat.succ_le_succ (Nat.zero_le f)
      · rw [retryAux_err_go op base a f err hop (Bool.eq_false_iff.2 hc)]
        exact Nat.succ_le_succ (ih (a + 1))

theorem retryAux_success {α : Type} (op : Nat → Except MysqlHandler.DbError α)
    (base : Nat) :
    ∀ (k fuel a : Nat) (v : α), k < fuel →
      (∀ i, i < k → ∃ e, op (a + i) = Except.error e ∧ MysqlHandler.is_transient e = true) →
      op (a + k) = Except.ok v →
      MysqlHandler.retryAux op base a fuel =
        { result := Except.ok v
          sleeps := (List.range k).map (fun j => base ^ (a + j))
          calls := k + 1 } := by
  intro k
  induction k with
  | zero =>
    intro fuel a v hk herr hok
    cases fuel with
    | zero => exact absurd hk (Nat.lt_irrefl 0)
    | succ f =>
      rw [show a + 0 = a from rfl] at hok
      rw [retryAux_ok op base a f v hok]
      rfl
  | succ k ih =>
    intro fuel a v hk herr hok
    cases fuel with
    | zero => exact absurd hk (Nat.not_lt_zero _)
    | succ f =>
      have hf : k < f := Nat.lt_of_succ_lt_succ hk
      obtain ⟨e, he, htr⟩ := herr 0 (Nat.succ_pos k)
      rw [show a + 0 = a from rfl] at he
      have hcond : (f == 0 || !(MysqlHandler.is_transient e)) = false := by
        have hf0 : (f == 0) = false := by
          cases f with
          | zero => exact absurd hf (Nat.not_lt_zero k)
          | succ f2 => rfl
        rw [hf0, htr]
        rfl
      rw [retryAux_err_go op base a f e he hcond]
      have hrest := ih f (a + 1) v hf
        (fun i hi => by
          have h2 := herr (i + 1) (Nat.succ_lt_succ hi)
          rwa [show a + (i + 1) = a + 1 + i by omega] at h2)
        (by rwa [show a + 1 + k = a + (k + 1) by omega])
      rw [hrest]
      simp only [MysqlHandler.RetryTrace.mk.injEq]
      refine ⟨trivial, ?_, trivial⟩
      rw [List.range_succ_eq_map, List.map_cons, List.map_map]
      refine congrArg₂ List.cons (by rw [Nat.add_zero]) ?_
      apply List.map_congr_left
      intro j hj
      show base ^ (a + 1 + j) = base ^ (a + (j + 1))
      rw [show a + 1 + j = a + (j + 1) by omega]

theorem retryAux_exhaust {α : Type} (op : Nat → Except MysqlHandler.DbError α)
    (base : Nat) :
    ∀ (f a : Nat),
      (∀ i, i < f + 1 →
        ∃ e, op (a + i) = Except.error e ∧ MysqlHandler.is_transient e = true) →
      ∃ e, op (a + f) = Except.error e ∧
        MysqlHandler.retryAux op base a (f + 1) =
          { result := Except.error e
            sleeps := (List.range f).map (fun j => base ^ (a + j))
            calls := f + 1 } := by
  intro f
  induction f with
  | zero =>
    intro a herr
    obtain ⟨e, he, htr⟩ := herr 0 (by omega)
    rw [show a + 0 = a from rfl] at he
    refine ⟨e, he, ?_⟩
    rw [retryAux_err_stop op base a 0 e he (by simp)]
    rfl
  | succ f ih =>
    intro a herr
    obtain ⟨e0, he0, htr0⟩ := herr 0 (by omega)
    rw [show a + 0 = a from rfl] at he0
    have hcond : ((f + 1) == 0 || !(MysqlHandler.is_transient e0)) = false := by
      rw [htr0]
      rfl
    obtain ⟨e, he, hrest⟩ := ih (a + 1) (fun i hi => by
      have h2 := herr (i + 1) (by omega)
      rwa [show a + (i + 1) = a + 1 + i by omega] at h2)
    refine ⟨e, by rwa [show a + (f + 1) = a + 1 + f by omega], ?_⟩
    rw [retryAux_err_go op base a (f + 1) e0 he0 hcond, hrest]
    simp only [MysqlHandler.RetryTrace.mk.injEq]
    refine ⟨trivial, ?_, trivial⟩
    rw [List.range_succ_eq_map, List.map_cons, List.map_map]
    refine congrArg₂ List.cons (by rw [Nat.add_zero]) ?_
    apply List.map_congr_left
    intro j hj
    show base ^ (a + 1 + j) = base ^ (a + (j + 1))
    rw [show a + 1 + j = a + (j + 1) by omega]

theorem retryAux_nontransient {α : Type} (op : Nat → Except MysqlHandler.DbError α)
    (base : Nat) :
    ∀ (k fuel a : Nat) (e : MysqlHandler.DbError), k < fuel →
      (∀ i, i < k →
        ∃ e2, op (a + i) = Except.error e2 ∧ MysqlHandler.is_transient e2 = true) →
      op (a + k) = Except.error e → MysqlHandler.is_transient e = false →
      MysqlHandler.retryAux op base a fuel =
        { result := Except.error e
          sleeps := (List.range k).map (fun j => base ^ (a + j))
          calls := k + 1 } := by
  intro k
  induction k with
  | zero =>
    intro fuel a e hk herr hop hnt
    cases fuel with
    | zero => exact absurd hk (Nat.lt_irrefl 0)
    | succ f =>
      rw [show a + 0 = a from rfl] at hop
      rw [retryAux_err_stop op base a f e hop (by rw [hnt]; simp)]
      rfl
  | succ k ih =>
    intro fuel a e hk herr hop hnt
    cases fuel with
    | zero => exact absurd hk (Nat.not_lt_zero _)
    | succ f =>
      have hf : k < f := Nat.lt_of_succ_lt_succ hk
      obtain ⟨e0, he0, htr0⟩ := herr 0 (Nat.succ_pos k)
      rw [show a + 0 = a from rfl] at he0
      have hcond : (f == 0 || !(MysqlHandler.is_transient e0)) = false := by
        have hf0 : (f == 0) = false := by
          cases f with
          | zero => exact absurd hf (Nat.not_lt_zero k)
          | succ f2 => rfl
        rw [hf0, htr0]
        rfl
      rw [retryAux_err_go op base a f e0 he0 hcond]
      have hrest := ih f (a + 1) e hf
        (fun i hi => by
          have h2 := herr (i + 1) (Nat.succ_lt_succ hi)
          rwa [show a + (i + 1) = a + 1 + i by omega] at h2)
        (by rwa [show a + 1 + k = a + (k + 1) by omega]) hnt
      rw [hrest]
      simp only [MysqlHandler.RetryTrace.mk.injEq]
      refine ⟨trivial, ?_, trivial⟩
      rw [List.range_succ_eq_map, List.map_cons, List.map_map]
      refine congrArg₂ List.cons (by rw [Nat.add_zero]) ?_
      apply List.map_congr_left
      intro j hj
      show base ^ (a + 1 + j) = base ^ (a + (j + 1))
      rw [show a + 1 + j = a + (j + 1) by omega]

/-- C3: `retry(operation, args..., base, max_attempts)` (modelled from the
spec; the function is absent from `src/`) calls the operation; it makes at
most `max_attempts` calls in total; if the first `k` attempts fail with
transient errors (connection-lost or lock-wait-timeout codes) and attempt `k`
succeeds, it returns that attempt's value having slept exactly once per
failed attempt with durations `base^0, base^1, ...` in order; if every
allowed attempt fails transiently it raises the last observed error after
exactly `max_attempts` calls; a non-transient database error is raised at
once, without further retries. -/
theorem C3_retry_spec {α : Type} (op : Nat → Except MysqlHandler.DbError α)
    (base max_attempts : Nat) (hmax : 1 ≤ max_attempts) :
    (MysqlHandler.retry op base max_attempts).calls ≤ max_attempts ∧
    (∀ (k : Nat) (v : α), k < max_attempts →
      (∀ i, i < k → ∃ e, op i = Except.error e ∧ MysqlHandler.is_transient e = true) →
      op k = Except.ok v →
      (MysqlHandler.retry op base max_attempts).result = Except.ok v ∧
      (MysqlHandler.retry op base max_attempts).sleeps =
        (List.range k).map (fun i => base ^ i) ∧
      (MysqlHandler.retry op base max_attempts).calls = k + 1) ∧
    ((∀ i, i < max_attempts →
        ∃ e, op i = Except.error e ∧ MysqlHandler.is_transient e = true) →
      ∃ e, op (max_attempts - 1) = Except.error e ∧
        (MysqlHandler.retry op base max_attempts).result = Except.error e ∧
        (MysqlHandler.retry op base max_attempts).calls = max_attempts) ∧
    (∀ (k : Nat) (e : MysqlHandler.DbError), k < max_attempts →
      (∀ i, i < k → ∃ e2, op i = Except.error e2 ∧ MysqlHandler.is_transient e2 = true) →
      op k = Except.error e → MysqlHandler.is_transient e = false →
      (MysqlHandler.retry op base max_attempts).result = Except.error e ∧
      (MysqlHandler.retry op base max_attempts).sleeps =
        (List.range k).map (fun i => base ^ i) ∧
      (MysqlHandler.retry op base max_attempts).calls = k + 1) := by
  have hzero : ∀ (k : Nat),
      (List.range k).map (fun j => base ^ (0 + j)) = (List.range k).map (fun i => base ^ i) :=
    fun k => List.map_congr_left (fun j _ => by rw [Nat.zero_add])
  refine ⟨retryAux_calls_le op base max_attempts 0, ?_, ?_, ?_⟩
  · intro k v hk herr hok
    have h := retryAux_success op base k max_attempts 0 v hk
      (fun i hi => by rw [Nat.zero_add]; exact herr i hi)
      (by rw [Nat.zero_add]; exact hok)
    unfold MysqlHandler.retry
    rw [h]
    exact ⟨rfl, hzero k, rfl⟩
  · intro herr
    obtain ⟨M, hM⟩ : ∃ M, max_attempts = M + 1 := ⟨max_attempts - 1, by omega⟩
    subst hM
    obtain ⟨e, he, hr⟩ := retryAux_exhaust op base M 0
      (fun i hi => by rw [Nat.zero_add]; exact herr i hi)
    rw [Nat.zero_add] at he
    refine ⟨e, he, ?_, ?_⟩
    · unfold MysqlHandler.retry
      rw [hr]
    · unfold MysqlHandler.retry
      rw [hr]
  · intro k e hk herr hop hnt
    have h := retryAux_nontransient op base k max_attempts 0 e hk
      (fun i hi => by rw [Nat.zero_add]; exact herr i hi)
      (by rw [Nat.zero_add]; exact hop) hnt
    unfold MysqlHandler.retry
    rw [h]
    exact ⟨rfl, hzero k, rfl⟩

/-- Witness for C3: an operation that fails twice with the transient
connection-lost code 2013 and then succeeds returns the success value `42`,
sleeps exactly twice with durations `base^0 = 1` then `base^1 = 2`, and makes
three calls. -/
theorem C3_retry_spec_witness :
    (MysqlHandler.retry
        (fun i => if i < 2 then Except.error ({ errno := 2013, notes := [] } : MysqlHandler.DbError)
          else Except.ok (42 : Nat)) 2 8).result = Except.ok 42 ∧
    (MysqlHandler.retry
        (fun i => if i < 2 then Except.error ({ errno := 2013, notes := [] } : MysqlHandler.DbError)
          else Except.ok (42 : Nat)) 2 8).sleeps = [1, 2] ∧
    (MysqlHandler.retry
        (fun i => if i < 2 then Except.error ({ errno := 2013, notes := [] } : MysqlHandler.DbError)
          else Except.ok (42 : Nat)) 2 8).calls = 3 := by
  have h := (C3_retry_spec
      (fun i => if i < 2 then Except.error ({ errno := 2013, notes := [] } : MysqlHandler.DbError)
        else Except.ok (42 : Nat)) 2 8 (by decide)).2.1 2 42 (by decide)
    (fun i hi => ⟨({ errno := 2013, notes := [] } : MysqlHandler.DbError), by
      show (if i < 2 then Except.error ({ errno := 2013, notes := [] } : MysqlHandler.DbError)
        else Except.ok (42 : Nat)) = Except.error ({ errno := 2013, notes := [] } : MysqlHandler.DbError)
      rw [if_pos hi], by decide⟩)
    (by rfl)
  obtain ⟨h1, h2, h3⟩ := h
  exact ⟨h1, h2.trans (by decide), h3⟩

theorem foldl_pyDictInsert_append (ps : List (String × String)) :
    ∀ d : List (String × String), (ps.map Prod.fst).Nodup →
      (∀ p ∈ ps, ∀ q ∈ d, ¬(q.1 = p.1)) →
      ps.foldl (fun d2 p => MysqlHandler.pyDictInsert d2 p.1 p.2) d = d ++ ps := by
  induction ps with
  | nil => intro d _ _; exact (List.append_nil d).symm
  | cons p tl ih =>
    intro d hnd hdisj
    have hkey : d.any (fun q => q.1 == p.1) = false := by
      rw [List.any_eq_false]
      intro q hq
      simp only [beq_iff_eq]
      exact hdisj p (List.mem_cons_self p tl) q hq
    have hins : MysqlHandler.pyDictInsert d p.1 p.2 = d ++ [(p.1, p.2)] := by
      unfold MysqlHandler.pyDictInsert
      rw [if_neg (by rw [hkey]; exact Bool.false_ne_true)]
    have hndtl : (tl.map Prod.fst).Nodup := (List.nodup_cons.1 (by simpa using hnd)).2
    have hhead : p.1 ∉ tl.map Prod.fst := (List.nodup_cons.1 (by simpa using hnd)).1
    show tl.foldl (fun d2 q => MysqlHandler.pyDictInsert d2 q.1 q.2)
        (MysqlHandler.pyDictInsert d p.1 p.2) = d ++ (p :: tl)
    rw [hins, ih (d ++ [(p.1, p.2)]) hndtl ?_]
    · rw [List.append_assoc]
      rfl
    · intro x hx q hq
      rcases List.mem_append.1 hq with hq | hq
      · exact hdisj x (List.mem_cons_of_mem p hx) q hq
      · have hq2 : q = (p.1, p.2) := by simpa using hq
        subst hq2
        intro hcontra
        exact hhead (hcontra ▸ List.mem_map_of_mem Prod.fst hx)

theorem pyDictOf_eq_self (ps : List (String × String))
    (hnd : (ps.map Prod.fst).Nodup) : MysqlHandler.pyDictOf ps = ps := by
  unfold MysqlHandler.pyDictOf
  rw [foldl_pyDictInsert_append ps [] hnd (fun p _ q hq => absurd hq (List.not_mem_nil q))]
  rfl

theorem pyDictGet_cons (k0 v0 k : String) (d : List (String × String)) :
    MysqlHandler.pyDictGet ((k0, v0) :: d) k =
      if (k0 == k) = true then v0 else MysqlHandler.pyDictGet d k := by
  unfold MysqlHandler.pyDictGet
  rw [List.find?_cons]
  by_cases h : (k0 == k) = true
  · simp [h]
  · simp [h]

theorem filter_map_snd_enumFrom (Q : String → Bool) :
    ∀ (l : List String) (n : Nat),
      l.filter Q = ((List.enumFrom n l).filter (fun p => Q p.2)).map Prod.snd := by
  intro l
  induction l with
  | nil => intro n; rfl
  | cons c tl ih =>
    intro n
    rw [List.enumFrom_cons, List.filter_cons, List.filter_cons]
    by_cases hq : Q c = true
    · rw [if_pos hq, if_pos (by simpa using hq), List.map_cons]
      rw [ih (n + 1)]
    · rw [if_neg hq, if_neg (by simpa using hq)]
      exact ih (n + 1)

theorem enumFrom_map_fst_str (g : Nat → String) :
    ∀ (l : List String) (n : Nat),
      (List.enumFrom n l).map (fun p => g p.1) = (List.range' n l.length).map g := by
  intro l
  induction l with
  | nil => intro n; rfl
  | cons c tl ih =>
    intro n
    rw [List.enumFrom_cons, List.map_cons, List.length_cons, List.range'_succ,
      List.map_cons, ih (n + 1)]

theorem clause_lookup (keys : List String) :
    ∀ (l : List String) (n : Nat), l.Nodup →
      ((List.enumFrom n l).filter (fun p => !(keys.contains p.2))).map
        (fun p => p.2 ++ "=vals." ++ MysqlHandler.pyDictGet
          ((List.enumFrom n l).map (fun q => (q.2, "alias" ++ toString q.1))) p.2)
      = ((List.enumFrom n l).filter (fun p => !(keys.contains p.2))).map
        (fun p => p.2 ++ "=vals." ++ ("alias" ++ toString p.1)) := by
  intro l
  induction l with
  | nil => intro n _; rfl
  | cons c tl ih =>
    intro n hnd
    obtain ⟨hc, hndtl⟩ := List.nodup_cons.1 hnd
    rw [List.enumFrom_cons, List.map_cons, List.filter_cons]
    have hcong : ∀ p ∈ (List.enumFrom (n + 1) tl).filter (fun p => !(keys.contains p.2)),
        p.2 ++ "=vals." ++ MysqlHandler.pyDictGet
          (((n, c).2, "alias" ++ toString (n, c).1) ::
            (List.enumFrom (n + 1) tl).map (fun q => (q.2, "alias" ++ toString q.1))) p.2
        = p.2 ++ "=vals." ++ MysqlHandler.pyDictGet
          ((List.enumFrom (n + 1) tl).map (fun q => (q.2, "alias" ++ toString q.1))) p.2 := by
      intro p hp
      have hmem : p.2 ∈ tl := by
        have h1 : p ∈ List.enumFrom (n + 1) tl := (List.mem_filter.1 hp).1
        have h2 := List.mem_map_of_mem Prod.snd h1
        rwa [List.enumFrom_map_snd] at h2
      have hne : (c == p.2) = false := by
        rw [beq_eq_false_iff_ne]
        intro hceq
        exact hc (hceq ▸ hmem)
      rw [show ((n, c).2, "alias" ++ toString (n, c).1) = (c, "alias" ++ toString n) from rfl,
        pyDictGet_cons, if_neg (by rw [hne]; exact Bool.false_ne_true)]
    by_cases hq : (!(keys.contains c)) = true
    · rw [if_pos (show (!(keys.contains (n, c).2)) = true from hq),
        List.map_cons, List.map_cons]
      refine congrArg₂ List.cons ?_ ?_
      · show c ++ "=vals." ++ MysqlHandler.pyDictGet
            ((c, "alias" ++ toString n) ::
              (List.enumFrom (n + 1) tl).map (fun q => (q.2, "alias" ++ toString q.1))) c
          = c ++ "=vals." ++ ("alias" ++ toString n)
        rw [pyDictGet_cons, if_pos (by simp)]
      · rw [List.map_congr_left hcong, ih (n + 1) hndtl]
    · rw [if_neg (show ¬(!(keys.contains (n, c).2)) = true from hq),
        List.map_congr_left hcong, ih (n + 1) hndtl]

theorem append_vals_alias (s t : String) :
    s ++ "=vals." ++ ("alias" ++ t) = s ++ "=vals.alias" ++ t := by
  have h : ("=vals." : String) ++ "alias" = "=vals.alias" := by decide
  rw [← String.append_assoc (s ++ "=vals.") "alias" t,
    String.append_assoc s "=vals." "alias", h]

/-- C2: for distinct destination columns,
`insert_select_on_duplicate_key_update_statement` returns
`insert into {table_into} ({destinations in map order}) select * from
(select {source expressions in map order} from {table_from}) as
vals(alias0,...,alias(n-1)) on duplicate key update {clause}` where alias `i`
corresponds positionally to the i-th destination of the column map and the
clause renders `dest=vals.alias{i}` for every destination `dest` not in
`keys`, in map order; in particular the quoted concrete scenario holds. -/
theorem C2_insert_select_statement (table_from table_into : String)
    (colmap : List (String × String)) (keys : List String)
    (hnd : (colmap.map Prod.snd).Nodup) :
    (MysqlHandler.insert_select_on_duplicate_key_update_statement
        table_from table_into colmap keys =
      "insert into " ++ table_into ++ " (" ++
        String.intercalate "," (colmap.map Prod.snd) ++ ") select * from " ++
        "(select " ++ String.intercalate "," (colmap.map Prod.fst) ++ " from " ++
        table_from ++ ") as vals(" ++
        String.intercalate ","
          ((List.range colmap.length).map (fun i => "alias" ++ toString i)) ++
        ") " ++ "on duplicate key update " ++
        String.intercalate ","
          (((colmap.map Prod.snd).enum.filter (fun p => !(keys.contains p.2))).map
            (fun p => p.2 ++ "=vals.alias" ++ toString p.1))) ∧
    MysqlHandler.insert_select_on_duplicate_key_update_statement "t0" "t1"
        [("s0", "d0"), ("s1", "d1"), ("s2*2", "d2")] ["d0"] =
      "insert into t1 (d0,d1,d2) select * from (select s0,s1,s2*2 from t0) as vals(alias0,alias1,alias2) on duplicate key update d1=vals.alias1,d2=vals.alias2" := by
  refine ⟨?_, by decide⟩
  have hdnodup : ((((colmap.map Prod.snd).enum.map
      (fun p => (p.2, "alias" ++ toString p.1)))).map Prod.fst).Nodup := by
    rw [List.map_map]
    show (List.map Prod.snd (List.enumFrom 0 (colmap.map Prod.snd))).Nodup
    rw [List.enumFrom_map_snd]
    exact hnd
  have hdict := pyDictOf_eq_self _ hdnodup
  have halias : String.intercalate ","
      ((MysqlHandler.pyDictOf ((colmap.map Prod.snd).enum.map
        (fun p => (p.2, "alias" ++ toString p.1)))).map Prod.snd) =
      String.intercalate ","
        ((List.range colmap.length).map (fun i => "alias" ++ toString i)) := by
    rw [hdict, List.map_map]
    show String.intercalate ","
      ((List.enumFrom 0 (colmap.map Prod.snd)).map
        (fun p => "alias" ++ toString p.1)) = _
    rw [enumFrom_map_fst_str (fun i => "alias" ++ toString i) (colmap.map Prod.snd) 0,
      ← List.range_eq_range', List.length_map]
  have hclause : String.intercalate ","
      (((colmap.map Prod.snd).filter (fun col_into => !(keys.contains col_into))).map
        (fun col_into => col_into ++ "=vals." ++
          MysqlHandler.pyDictGet
            (MysqlHandler.pyDictOf ((colmap.map Prod.snd).enum.map
              (fun p => (p.2, "alias" ++ toString p.1)))) col_into)) =
      String.intercalate ","
        (((colmap.map Prod.snd).enum.filter (fun p => !(keys.contains p.2))).map
          (fun p => p.2 ++ "=vals.alias" ++ toString p.1)) := by
    rw [hdict,
      filter_map_snd_enumFrom (fun col_into => !(keys.contains col_into))
        (colmap.map Prod.snd) 0,
      List.map_map]
    show String.intercalate ","
      (((List.enumFrom 0 (colmap.map Prod.snd)).filter
          (fun p => !(keys.contains p.2))).map
        (fun p => p.2 ++ "=vals." ++ MysqlHandler.pyDictGet
          ((List.enumFrom 0 (colmap.map Prod.snd)).map
            (fun q => (q.2, "alias" ++ toString q.1))) p.2)) = _
    rw [clause_lookup keys (colmap.map Prod.snd) 0 hnd]
    exact congrArg (String.intercalate ",")
      (List.map_congr_left (fun p _ => append_vals_alias p.2 (toString p.1)))
  show "insert into " ++ table_into ++ " (" ++
      String.intercalate "," (colmap.map Prod.snd) ++ ") select * from " ++
      "(select " ++ String.intercalate "," (colmap.map Prod.fst) ++ " from " ++
      table_from ++ ") as vals(" ++
      String.intercalate ","
        ((MysqlHandler.pyDictOf ((colmap.map Prod.snd).enum.map
          (fun p => (p.2, "alias" ++ toString p.1)))).map Prod.snd) ++
      ") " ++ "on duplicate key update " ++
      String.intercalate ","
        (((colmap.map Prod.snd).filter (fun col_into => !(keys.contains col_into))).map
          (fun col_into => col_into ++ "=vals." ++
            MysqlHandler.pyDictGet
              (MysqlHandler.pyDictOf ((colmap.map Prod.snd).enum.map
                (fun p => (p.2, "alias" ++ toString p.1)))) col_into)) = _
  rw [halias, hclause]

/-- Witness for C2 at the claim's concrete scenario (distinct destinations). -/
theorem C2_insert_select_statement_witness :
    MysqlHandler.insert_select_on_duplicate_key_update_statement "t0" "t1"
        [("s0", "d0"), ("s1", "d1"), ("s2*2", "d2")] ["d0"] =
      "insert into t1 (d0,d1,d2) select * from (select s0,s1,s2*2 from t0) as vals(alias0,alias1,alias2) on duplicate key update d1=vals.alias1,d2=vals.alias2" :=
  (C2_insert_select_statement "t0" "t1" [("s0", "d0"), ("s1", "d1"), ("s2*2", "d2")]
    ["d0"] (by decide)).2
